import Mathlib

/-!
Verification of `main/logger.py` (function-call logging and training-report
logging decorators) against its specification.

The Python module is shallowly embedded below.  External collaborators
(the sklearn metric functions, pickle, the traceback formatter, the wall
clock and the str() renderings of opaque values) are passed in as explicit
function parameters; the module's own control flow, branch conditions,
string formats and session/config reads are translated directly from the
source.  Effectful execution (log writes, wrapped-function invocations,
cross-validation runs, sink construction) is modelled by returning an
explicit outcome record.
-/

/-- The Python `logging` severities this module can resolve
(`logging.INFO` and `logging.ERROR`). -/
inductive PyLevel
  | info
  | error
deriving DecidableEq

/-- The `logging` module itself, as a first-class Python object: the source's
`get_level` contains the comparison `logging == 'DO NOT LOG'`, which compares
the module object against a string. -/
inductive PyModule
  | loggingModule
deriving DecidableEq

/-- Python `==` between a module object and a string: always `False`. -/
def pyModuleEqStr (_ : PyModule) (_ : String) : Bool := false

/-- Embeds `get_level(logger, level)`: `'INFO'` resolves to `logging.INFO`,
`'ERROR'` to `logging.ERROR`; the third branch tests
`logging == 'DO NOT LOG'` (the module against a string, never true), and
falling off the end of the Python function returns `None`. -/
def get_level {L : Type} (logger : L) (level : String) : Option PyLevel :=
  if level = "INFO" then some PyLevel.info
  else if level = "ERROR" then some PyLevel.error
  else if pyModuleEqStr PyModule.loggingModule "DO NOT LOG" then none
  else none

/-- A pandas `Series` as this module consumes it: the ordered values and the
series' `name` attribute. -/
structure Series (β : Type) where
  values : List β
  name : String

/-- The session-scoped configuration the module reads:
`session['config.ini']['DEFECT_ATTRIBUTES']['logging_level'][0]`,
`session['session_id']`, and
`session['predictions_parameters.ini']['predictions_parameters'][key]`
(the last one a map from key to a list of configured values of some
opaque element type `γ`). -/
structure Session (γ : Type) where
  logging_level : String
  session_id : String
  predictions_parameters : String → List γ

/-- One line written to the log: its severity and its message. -/
structure LogRecord where
  level : PyLevel
  message : String
deriving DecidableEq

/-- Embeds `load_base_loggers_config(func)`: resolve the level via
`get_level` (the logger object is modelled by its name,
`logging.getLogger(func.__name__)`); `if not level: return None` — no sink is
constructed in that case; otherwise the logger is configured and a rotating
file handler is constructed exactly when the (process-global) logger has no
handlers yet (`hasHandlers` is that pre-existing state).  Returns the
configured logger (modelled by its resolved level) together with whether a
sink was constructed by this call. -/
def load_base_loggers_config {γ : Type} (sess : Session γ) (funcName : String)
    (hasHandlers : Bool) : Option PyLevel × Bool :=
  match get_level funcName sess.logging_level with
  | none => (none, false)
  | some lvl => (some lvl, !hasHandlers)

/-- `[a, b]` with first-occurrence order and a seen-accumulator: helper for
`pdUnique`. -/
def pdUniqueAux {β : Type} [DecidableEq β] : List β → List β → List β
  | _, [] => []
  | seen, a :: l =>
    if a ∈ seen then pdUniqueAux seen l else a :: pdUniqueAux (a :: seen) l

/-- pandas `Series.unique().tolist()`: the distinct values of the series in
order of first appearance. -/
def pdUnique {β : Type} [DecidableEq β] (l : List β) : List β :=
  pdUniqueAux [] l

/-- Line 159 of the source:
`target_names = [str(x) for x in range(len(areas.unique().tolist()))]`. -/
def targetNamesOf {β : Type} [DecidableEq β] (areas : List β) : List String :=
  (List.range (pdUnique areas).length).map (fun x => toString x)

/-- Line 169 of the source: `not set(target_names).difference(set(['0', '1']))`
— the set difference is empty exactly when every target name is `"0"` or
`"1"`. -/
def binaryBranchCheck (target_names : List String) : Bool :=
  target_names.all (fun s => s == "0" || s == "1")

/-- Lowercase a string character-wise (Python `str.lower()` restricted to the
ASCII names this module matches on). -/
def pyLower (s : String) : String :=
  String.mk (s.toList.map Char.toLower)

/-- Boolean prefix test on lists (structural, kernel-evaluable). -/
def isPrefixB {β : Type} [DecidableEq β] : List β → List β → Bool
  | [], _ => true
  | _ :: _, [] => false
  | a :: as, b :: bs => a == b && isPrefixB as bs

/-- Boolean infix (contiguous-substring) test on lists. -/
def isInfixB {β : Type} [DecidableEq β] (needle : List β) : List β → Bool
  | [] => isPrefixB needle []
  | b :: bs => isPrefixB needle (b :: bs) || isInfixB needle bs

/-- Python's `needle in hay` substring test on strings. -/
def pyInStr (needle hay : String) : Bool :=
  isInfixB needle.toList hay.toList

/-- Lines 187–191 of the source: the multi-class branch's area name —
`'priority' in areas.name.lower()` wins, else `'ttr' in areas.name.lower()`,
else the empty string. -/
def inferAreasName (name : String) : String :=
  if pyInStr "priority" (pyLower name) then "priority"
  else if pyInStr "ttr" (pyLower name) then "ttr"
  else ""

/-- Modelled from the spec: the area-name mapping exactly as the claim words
it — "a name containing `priority`" / "a name containing `ttr`" as literal
substring matches on the name as given (no lowercasing is mentioned). -/
def specInferAreasName (name : String) : String :=
  if pyInStr "priority" name then "priority"
  else if pyInStr "ttr" name then "ttr"
  else ""

/-- Modelled from the spec: the claim's binary-branch condition — "the set of
distinct labels in the area series is exactly the two labels 0 and 1". -/
def specLabelSetIsBinary (l : List Int) : Bool :=
  l.all (fun x => x == 0 || x == 1) && l.contains 0 && l.contains 1

/-- The message format of the Call Logger's info line (lines 129–139 of the
source; the pieces rendered by Python `str()` are received as strings, and
`date` is the rendering of `datetime.now() - start`). -/
def callLogMessage (module name args kwargs date func_result : String) : String :=
  "function: " ++ module ++ "." ++ name ++ ", arguments:" ++ name ++ "(" ++
    args ++ "," ++ kwargs ++ ")             \ntotal execution date: " ++ date ++
    "            \nfunctions_result: " ++ func_result ++ "\n"

/-- What one run of a `log`-wrapped call produces: the value returned (or the
exception re-raised), and the log lines written. -/
structure CallOutcome (ε ρ : Type) where
  result : Except ε ρ
  logs : List LogRecord

/-- Embeds `log(func)`'s inner `wrapped(*args, **kwargs)` (lines 117–141).
The wrapped Python callable is modelled as `func : α → List (String × σ) →
Except ε ρ` (positional tuple, keyword dictionary, normal return or raised
exception).  `fmtTrace` models `traceback.format_exc()`; `strArgs`,
`strKwargs`, `strResult` model the `str()` renderings interpolated into the
info line; `elapsed` models `datetime.now() - start`. -/
def log_wrapped {γ α σ ε ρ : Type} (sess : Session γ) (funcName : String)
    (hasHandlers : Bool) (fmtTrace : ε → String) (funcModule : String)
    (strArgs : α → String) (strKwargs : List (String × σ) → String)
    (strResult : ρ → String) (elapsed : String)
    (func : α → List (String × σ) → Except ε ρ)
    (args : α) (kwargs : List (String × σ)) : CallOutcome ε ρ :=
  match (load_base_loggers_config sess funcName hasHandlers).1 with
  | none => ⟨func args kwargs, []⟩
  | some _ =>
    match func args kwargs with
    | Except.error e => ⟨Except.error e, [⟨PyLevel.error, fmtTrace e⟩]⟩
    | Except.ok r =>
      ⟨Except.ok r,
        [⟨PyLevel.info,
          callLogMessage funcModule funcName (strArgs args) (strKwargs kwargs)
            elapsed (strResult r)⟩]⟩

/-- The positional argument tuple of a training call,
`(descr, areas, *middle, model_path)`: the source destructures it as
`args[0], args[1], args[len(args) - 1]` (line 158), under the input contract
that the first argument is the description series, the second the area/label
series and the last the model path. -/
structure TrainArgs (β δ π : Type) where
  descr : δ
  areas : Series β
  middle : List π
  model_path : String

/-- The external library collaborators `log_train` calls: `pickle.load` on the
opened model file, `cross_val_predict`, the four sklearn metrics (each
modelled already composed with the `str()` the source applies to the score,
and `classification_report`, which Python returns as a string), the `str()`
rendering of configured class-name elements, and `traceback.format_exc`. -/
structure ExternalFns (β δ μ γ ε : Type) where
  pickle_load : String → μ
  cross_val_predict : μ → δ → List β → Nat → Nat → List β
  classification_report : List β → List β → List String → String
  accuracy_score : List β → List β → String
  roc_auc_score : List β → List β → String
  matthews_corrcoef : List β → List β → String
  str_el : γ → String
  format_exc : ε → String

/-- Embeds `__get_prediction(description, field_values, model_path)`
(lines 33–55): `cross_val_predict(pickle.load(open(model_path + '.sav',
'rb')), description, field_values, cv=10, n_jobs=4)`. -/
def get_prediction {β δ μ γ ε : Type} (ext : ExternalFns β δ μ γ ε)
    (description : δ) (field_values : List β) (model_path : String) : List β :=
  ext.cross_val_predict (ext.pickle_load (model_path ++ ".sav"))
    description field_values 10 4

/-- The report header shared by both branches (lines 170 and 193):
`'\ntotal execution time: {time} \nareas_name: {areas_name} \n{reports}'`. -/
def trainReportHeader (time areas_name reports : String) : String :=
  "\ntotal execution time: " ++ time ++ " \nareas_name: " ++ areas_name ++
    " \n" ++ reports

/-- The `reports` block of the binary branch (lines 173–185):
classification report, then `accuracy_score`, `roc_auc_score` and
`matthews_corrcoef` lines. -/
def binaryReports {β δ μ γ ε : Type} (ext : ExternalFns β δ μ γ ε)
    (areas prediction : List β) (target_names : List String) : String :=
  ext.classification_report areas prediction target_names ++ "\n" ++
    "accuracy_score " ++ ext.accuracy_score areas prediction ++ "\n" ++
    "roc_auc_score " ++ ext.roc_auc_score areas prediction ++ "\n" ++
    "matthews_corrcoef " ++ ext.matthews_corrcoef areas prediction ++ "\n"

/-- Python `sorted(areas)`: the series' values in ascending order (a stable
sort). -/
def pySorted {β : Type} [LinearOrder β] (l : List β) : List β :=
  List.insertionSort (fun a b => a ≤ b) l

/-- What one run of a `log_train`-wrapped call produces: the value returned
(`Unit` models Python's `None`) or the exception re-raised, the log lines
written, each invocation of the wrapped function with the positional and
keyword arguments it received, how many times `cross_val_predict` ran, and
whether a rotating-file sink was constructed. -/
structure TrainOutcome (β δ π σ ε : Type) where
  result : Except ε Unit
  logs : List LogRecord
  funcCalls : List (TrainArgs β δ π × List (String × σ))
  crossvalRuns : Nat
  sinkConstructed : Bool

/-- Embeds `log_train(func)`'s inner `wrapped(*args, **kwargs)`
(lines 150–202).  Disabled path: `func(*args)` (positional arguments only, no
keywords) and return `None`, nothing logged, nothing evaluated.  Enabled
path: call `func(*args)`, on an exception log one error-trace line and
re-raise; on success run `__get_prediction`, then either the binary report
(when every positional target name is `'0'` or `'1'`) or the multi-class
report (sorted true labels, prediction as computed, class names from the
session configuration under `<areas_name>_classes`), and log it at info
severity. -/
def log_train_wrapped {β δ μ γ σ ε ρ π : Type} [LinearOrder β]
    (ext : ExternalFns β δ μ γ ε) (sess : Session γ) (funcName : String)
    (hasHandlers : Bool) (elapsed : String)
    (func : TrainArgs β δ π → List (String × σ) → Except ε ρ)
    (args : TrainArgs β δ π) (kwargs : List (String × σ)) :
    TrainOutcome β δ π σ ε :=
  match load_base_loggers_config sess funcName hasHandlers with
  | (none, _) => ⟨(func args []).map (fun _ => ()), [], [(args, [])], 0, false⟩
  | (some _, sink) =>
    let areas := args.areas
    let target_names := targetNamesOf areas.values
    match func args [] with
    | Except.error e =>
      ⟨Except.error e, [⟨PyLevel.error, ext.format_exc e⟩], [(args, [])], 0, sink⟩
    | Except.ok _ =>
      let prediction := get_prediction ext args.descr areas.values args.model_path
      let result :=
        if binaryBranchCheck target_names then
          trainReportHeader elapsed areas.name
            (binaryReports ext areas.values prediction target_names)
        else
          let areas_name := inferAreasName areas.name
          trainReportHeader elapsed areas_name
            (ext.classification_report (pySorted areas.values) prediction
              ((sess.predictions_parameters (areas_name ++ "_classes")).map
                ext.str_el))
      ⟨Except.ok (), [⟨PyLevel.info, result⟩], [(args, [])], 1, sink⟩

/-- A concrete session whose logging level resolves to info severity. -/
def sessInfo : Session Nat :=
  ⟨"INFO", "s1", fun _ => [8, 9]⟩

/-- A concrete session carrying the disable sentinel as its logging level. -/
def sessOff : Session Nat :=
  ⟨"DO NOT LOG", "s1", fun _ => [8, 9]⟩

/-- Concrete external collaborators for evaluating the embedding: the loaded
model is a unit token, cross-validation predicts the label series itself, the
metric renderings are fixed tags, configured class names render via
`toString`, and the trace of an exception is the exception string itself. -/
def extTest : ExternalFns Int Unit Unit Nat String :=
  ⟨fun _ => (), fun _ _ l _ _ => l, fun _ _ _ => "CR", fun _ _ => "A",
    fun _ _ => "R", fun _ _ => "M", fun n => toString n, fun e => e⟩

/-- A training function that succeeds with value 7. -/
def trainOk : TrainArgs Int Unit Unit → List (String × Unit) → Except String Nat :=
  fun _ _ => Except.ok 7

/-- A training function that raises. -/
def trainBoom : TrainArgs Int Unit Unit → List (String × Unit) → Except String Nat :=
  fun _ _ => Except.error "boom"

/-- Binary-set training arguments: labels 0 and 1 only. -/
def targsBin : TrainArgs Int Unit Unit :=
  ⟨(), ⟨[0, 1, 0, 1], "x"⟩, [], "m"⟩

/-- Three-label training arguments, series name containing `"ttr"`. -/
def targsMulti : TrainArgs Int Unit Unit :=
  ⟨(), ⟨[3, 1, 2], "ttr_field"⟩, [], "m"⟩

/-- A plain wrapped callable for the Call Logger that succeeds. -/
def callOk : Nat → List (String × Unit) → Except String Nat :=
  fun n _ => Except.ok (n + 1)

/-- A plain wrapped callable for the Call Logger that raises. -/
def callBoom : Nat → List (String × Unit) → Except String Nat :=
  fun _ _ => Except.error "boom"

theorem mem_pdUniqueAux {β : Type} [DecidableEq β] (x : β) :
    ∀ (l seen : List β), x ∈ pdUniqueAux seen l ↔ x ∈ l ∧ x ∉ seen := by
  intro l
  induction l with
  | nil => intro seen; simp [pdUniqueAux]
  | cons a l ih =>
    intro seen
    by_cases ha : a ∈ seen
    · rw [pdUniqueAux, if_pos ha, ih seen]
      constructor
      · rintro ⟨hx, hns⟩; exact ⟨List.mem_cons_of_mem a hx, hns⟩
      · rintro ⟨hx, hns⟩
        rcases List.mem_cons.mp hx with h | h
        · cases h; exact absurd ha hns
        · exact ⟨h, hns⟩
    · rw [pdUniqueAux, if_neg ha]
      constructor
      · intro hx
        rcases List.mem_cons.mp hx with h | h
        · cases h; exact ⟨List.mem_cons_self _ _, ha⟩
        · rcases (ih (a :: seen)).mp h with ⟨hl, hns⟩
          refine ⟨List.mem_cons_of_mem a hl, fun hmem => hns ?_⟩
          exact List.mem_cons_of_mem a hmem
      · rintro ⟨hx, hns⟩
        by_cases hxa : x = a
        · cases hxa; exact List.mem_cons_self _ _
        · rcases List.mem_cons.mp hx with h | h
          · exact absurd h hxa
          · refine List.mem_cons_of_mem a ((ih (a :: seen)).mpr ⟨h, ?_⟩)
            intro hmem
            rcases List.mem_cons.mp hmem with h2 | h2
            · exact hxa h2
            · exact hns h2

theorem nodup_pdUniqueAux {β : Type} [DecidableEq β] :
    ∀ (l seen : List β), (pdUniqueAux seen l).Nodup := by
  intro l
  induction l with
  | nil => intro seen; simp [pdUniqueAux]
  | cons a l ih =>
    intro seen
    by_cases ha : a ∈ seen
    · rw [pdUniqueAux, if_pos ha]; exact ih seen
    · rw [pdUniqueAux, if_neg ha]
      refine List.nodup_cons.mpr ⟨?_, ih (a :: seen)⟩
      intro hmem
      exact ((mem_pdUniqueAux a l (a :: seen)).mp hmem).2 (List.mem_cons_self a seen)

theorem mem_pdUnique {β : Type} [DecidableEq β] (x : β) (l : List β) :
    x ∈ pdUnique l ↔ x ∈ l := by
  simp [pdUnique, mem_pdUniqueAux]

theorem nodup_pdUnique {β : Type} [DecidableEq β] (l : List β) :
    (pdUnique l).Nodup :=
  nodup_pdUniqueAux l []

/-- The number of values pandas `unique` keeps is the number of distinct
labels. -/
theorem pdUnique_length_eq_card {β : Type} [DecidableEq β] (l : List β) :
    (pdUnique l).length = l.toFinset.card := by
  have h1 : (pdUnique l).toFinset = l.toFinset := by
    ext x
    simp [List.mem_toFinset, mem_pdUnique]
  rw [← List.toFinset_card_of_nodup (nodup_pdUnique l), h1]

/-- The positional target names `"0", ..., str(k-1)` all lie in `"0","1"`
exactly when `k ≤ 2`. -/
theorem binaryBranchCheck_range (k : Nat) :
    binaryBranchCheck ((List.range k).map (fun x => toString x)) = true ↔
      k ≤ 2 := by
  unfold binaryBranchCheck
  rw [List.all_eq_true]
  constructor
  · intro h
    by_contra hk
    have h2 : toString (2 : Nat) ∈ (List.range k).map (fun x => toString x) :=
      List.mem_map.mpr ⟨2, List.mem_range.mpr (by omega), rfl⟩
    have h3 := h _ h2
    revert h3
    decide
  · intro hk x hx
    interval_cases k
    · simp at hx
    · rcases List.mem_map.mp hx with ⟨y, hy, rfl⟩
      rcases List.mem_range.mp hy with _
      interval_cases y
      decide
    · rcases List.mem_map.mp hx with ⟨y, hy, rfl⟩
      have := List.mem_range.mp hy
      interval_cases y <;> decide

/-- The source's binary-branch condition (lines 159 and 169 combined) holds
exactly when the series has at most two distinct labels — whatever the labels
are. -/
theorem binaryBranch_iff_two_distinct {β : Type} [DecidableEq β]
    (areas : List β) :
    binaryBranchCheck (targetNamesOf areas) = true ↔
      areas.toFinset.card ≤ 2 := by
  unfold targetNamesOf
  rw [binaryBranchCheck_range, pdUnique_length_eq_card]

/-- **C8**: the Level Resolver maps `"INFO"` to the info severity and
`"ERROR"` to the error severity (both non-null), and every other input —
including the `'DO NOT LOG'` disable sentinel — to the null result, for any
logger argument, without raising. -/
theorem C8_level_resolution {L : Type} (logger : L) (level : String) :
    get_level logger level =
      (if level = "INFO" then some PyLevel.info
        else if level = "ERROR" then some PyLevel.error
        else none) ∧
    get_level logger "DO NOT LOG" = none := by
  refine ⟨?_, rfl⟩
  unfold get_level pyModuleEqStr
  by_cases h1 : level = "INFO" <;> by_cases h2 : level = "ERROR" <;>
    simp [h1, h2]

/-- **C9**: the Level Resolver is pure and deterministic — resolving the same
level twice gives the same severity, and the result is independent of the
logger argument, even across logger types. -/
theorem C9_level_resolver_pure {L₁ L₂ : Type} (logger₁ : L₁) (logger₂ : L₂)
    (level : String) :
    get_level logger₁ level = get_level logger₂ level ∧
    get_level logger₁ level = get_level logger₁ level :=
  ⟨rfl, rfl⟩

/-- **C10**: the Training Report Builder accepts keyword arguments but never
forwards them — in the disabled path, the failure path and the success path
alike, the wrapped function is invoked exactly once, with the positional
arguments and an empty keyword dictionary. -/
theorem C10_kwargs_not_forwarded {β δ μ γ σ ε ρ π : Type} [LinearOrder β]
    (ext : ExternalFns β δ μ γ ε) (sess : Session γ) (funcName : String)
    (hasHandlers : Bool) (elapsed : String)
    (func : TrainArgs β δ π → List (String × σ) → Except ε ρ)
    (args : TrainArgs β δ π) (kwargs : List (String × σ)) :
    (log_train_wrapped ext sess funcName hasHandlers elapsed func args
      kwargs).funcCalls = [(args, [])] := by
  unfold log_train_wrapped
  rcases hload : load_base_loggers_config sess funcName hasHandlers with
    ⟨_ | lvl, sink⟩
  · rfl
  · rcases hfunc : func args [] with e | r <;> rfl

/-- **C7**: when the Level Resolver reports "do not log", the Training Report
Builder invokes the wrapped function once with only its positional inputs and
returns at once: nothing is logged, no cross-validated prediction is
computed, and no log sink is constructed or written. -/
theorem C7_disabled_path_frame {β δ μ γ σ ε ρ π : Type} [LinearOrder β]
    (ext : ExternalFns β δ μ γ ε) (sess : Session γ) (funcName : String)
    (hasHandlers : Bool) (elapsed : String)
    (func : TrainArgs β δ π → List (String × σ) → Except ε ρ)
    (args : TrainArgs β δ π) (kwargs : List (String × σ))
    (hdis : get_level funcName sess.logging_level = none) :
    log_train_wrapped ext sess funcName hasHandlers elapsed func args kwargs =
      ⟨(func args []).map (fun _ => ()), [], [(args, [])], 0, false⟩ := by
  unfold log_train_wrapped load_base_loggers_config
  rw [hdis]

/-- Witness for C7 at a concrete disabled session and concrete inputs. -/
theorem C7_witness :
    get_level "train" sessOff.logging_level = none ∧
    log_train_wrapped extTest sessOff "train" false "E" trainOk targsBin
        [("k", ())] =
      ⟨Except.ok (), [], [(targsBin, [])], 0, false⟩ :=
  ⟨rfl,
    C7_disabled_path_frame extTest sessOff "train" false "E" trainOk targsBin
      [("k", ())] rfl⟩

/-- **C6**: a call through the Training Report Builder returns `None` — in
the disabled path and in the success path, whatever value the wrapped
function returned (divergent from the Call Logger, which preserves it). -/
theorem C6_returns_none {β δ μ γ σ ε ρ π : Type} [LinearOrder β]
    (ext : ExternalFns β δ μ γ ε) (sess : Session γ) (funcName : String)
    (hasHandlers : Bool) (elapsed : String)
    (func : TrainArgs β δ π → List (String × σ) → Except ε ρ)
    (args : TrainArgs β δ π) (kwargs : List (String × σ)) (r : ρ)
    (hok : func args [] = Except.ok r) :
    (log_train_wrapped ext sess funcName hasHandlers elapsed func args
      kwargs).result = Except.ok () := by
  unfold log_train_wrapped
  rcases hload : load_base_loggers_config sess funcName hasHandlers with
    ⟨_ | lvl, sink⟩
  · simp [hok, Except.map]
  · simp [hok]

/-- Witness for C6: the wrapped function returns 7, the decorated call
returns `None`, on an enabled and on a disabled session. -/
theorem C6_witness :
    trainOk targsBin [] = Except.ok 7 ∧
    (log_train_wrapped extTest sessInfo "train" false "E" trainOk targsBin
      []).result = Except.ok () ∧
    (log_train_wrapped extTest sessOff "train" false "E" trainOk targsBin
      []).result = Except.ok () :=
  ⟨rfl,
    C6_returns_none extTest sessInfo "train" false "E" trainOk targsBin [] 7
      rfl,
    C6_returns_none extTest sessOff "train" false "E" trainOk targsBin [] 7
      rfl⟩

/-- **C4**: for every wrapped function and every input on which it returns
normally, the Call Logger returns exactly the wrapped function's value: with
logging disabled it is a pure pass-through writing nothing, with logging
enabled exactly one info line is written and the value is unmodified. -/
theorem C4_call_logger_preserves_result {γ α σ ε ρ : Type} (sess : Session γ)
    (funcName : String) (hasHandlers : Bool) (fmtTrace : ε → String)
    (funcModule : String) (strArgs : α → String)
    (strKwargs : List (String × σ) → String) (strResult : ρ → String)
    (elapsed : String) (func : α → List (String × σ) → Except ε ρ)
    (args : α) (kwargs : List (String × σ)) (r : ρ)
    (hok : func args kwargs = Except.ok r) :
    (log_wrapped sess funcName hasHandlers fmtTrace funcModule strArgs
      strKwargs strResult elapsed func args kwargs).result = Except.ok r ∧
    (get_level funcName sess.logging_level = none →
      (log_wrapped sess funcName hasHandlers fmtTrace funcModule strArgs
        strKwargs strResult elapsed func args kwargs).logs = []) ∧
    (∀ lvl, get_level funcName sess.logging_level = some lvl →
      (log_wrapped sess funcName hasHandlers fmtTrace funcModule strArgs
        strKwargs strResult elapsed func args kwargs).logs =
        [⟨PyLevel.info,
          callLogMessage funcModule funcName (strArgs args) (strKwargs kwargs)
            elapsed (strResult r)⟩]) := by
  unfold log_wrapped load_base_loggers_config
  rcases hl : get_level funcName sess.logging_level with _ | lvl <;>
    refine ⟨?_, ?_, ?_⟩ <;> simp [hok]

/-- Witness for C4 at concrete inputs, on an enabled and a disabled
session. -/
theorem C4_witness :
    callOk 4 [] = Except.ok 5 ∧
    (log_wrapped sessInfo "f" false id "mod" toString (fun _ => "kw") toString
      "E" callOk 4 []).result = Except.ok 5 ∧
    (log_wrapped sessOff "f" false id "mod" toString (fun _ => "kw") toString
      "E" callOk 4 []).result = Except.ok 5 ∧
    (log_wrapped sessOff "f" false id "mod" toString (fun _ => "kw") toString
      "E" callOk 4 []).logs = [] :=
  ⟨rfl,
    (C4_call_logger_preserves_result sessInfo "f" false id "mod" toString
      (fun _ => "kw") toString "E" callOk 4 [] 5 rfl).1,
    (C4_call_logger_preserves_result sessOff "f" false id "mod" toString
      (fun _ => "kw") toString "E" callOk 4 [] 5 rfl).1,
    (C4_call_logger_preserves_result sessOff "f" false id "mod" toString
      (fun _ => "kw") toString "E" callOk 4 [] 5 rfl).2.1 rfl⟩

/-- **C5**: with logging enabled, when the wrapped function raises, both the
Call Logger and the Training Report Builder write exactly one error-severity
line (the formatted trace) and re-raise the identical exception; in the
Training Report Builder no cross-validation runs and no report line is
written after the failed call. -/
theorem C5_failure_path {γ α σ ε ρ β δ μ π ρ₂ : Type} [LinearOrder β]
    (sess : Session γ) (funcName : String) (hasHandlers : Bool)
    (fmtTrace : ε → String) (funcModule : String) (strArgs : α → String)
    (strKwargs : List (String × σ) → String) (strResult : ρ → String)
    (elapsed : String) (lvl : PyLevel)
    (hl : get_level funcName sess.logging_level = some lvl)
    (cfunc : α → List (String × σ) → Except ε ρ) (cargs : α)
    (ckwargs : List (String × σ)) (e₁ : ε)
    (hfail₁ : cfunc cargs ckwargs = Except.error e₁)
    (ext : ExternalFns β δ μ γ ε)
    (tfunc : TrainArgs β δ π → List (String × σ) → Except ε ρ₂)
    (targs : TrainArgs β δ π) (tkwargs : List (String × σ)) (e₂ : ε)
    (hfail₂ : tfunc targs [] = Except.error e₂) :
    (log_wrapped sess funcName hasHandlers fmtTrace funcModule strArgs
      strKwargs strResult elapsed cfunc cargs ckwargs).result =
        Except.error e₁ ∧
    (log_wrapped sess funcName hasHandlers fmtTrace funcModule strArgs
      strKwargs strResult elapsed cfunc cargs ckwargs).logs =
        [⟨PyLevel.error, fmtTrace e₁⟩] ∧
    (log_train_wrapped ext sess funcName hasHandlers elapsed tfunc targs
      tkwargs).result = Except.error e₂ ∧
    (log_train_wrapped ext sess funcName hasHandlers elapsed tfunc targs
      tkwargs).logs = [⟨PyLevel.error, ext.format_exc e₂⟩] ∧
    (log_train_wrapped ext sess funcName hasHandlers elapsed tfunc targs
      tkwargs).crossvalRuns = 0 := by
  unfold log_wrapped log_train_wrapped load_base_loggers_config
  rw [hl]
  simp [hfail₁, hfail₂]

/-- Witness for C5 at concrete inputs: both decorators observe the raised
`"boom"`, re-raise it and write one error line holding its trace. -/
theorem C5_witness :
    get_level "f" sessInfo.logging_level = some PyLevel.info ∧
    callBoom 4 [] = Except.error "boom" ∧
    trainBoom targsBin [] = Except.error "boom" ∧
    ((log_wrapped sessInfo "f" false id "mod" toString (fun _ => "kw")
        toString "E" callBoom 4 []).result = Except.error "boom" ∧
      (log_wrapped sessInfo "f" false id "mod" toString (fun _ => "kw")
        toString "E" callBoom 4 []).logs = [⟨PyLevel.error, id "boom"⟩] ∧
      (log_train_wrapped extTest sessInfo "f" false "E" trainBoom targsBin
        []).result = Except.error "boom" ∧
      (log_train_wrapped extTest sessInfo "f" false "E" trainBoom targsBin
        []).logs = [⟨PyLevel.error, extTest.format_exc "boom"⟩] ∧
      (log_train_wrapped extTest sessInfo "f" false "E" trainBoom targsBin
        []).crossvalRuns = 0) :=
  ⟨rfl, rfl, rfl,
    C5_failure_path sessInfo "f" false id "mod" toString (fun _ => "kw")
      toString "E" PyLevel.info rfl callBoom 4 [] "boom" rfl extTest trainBoom
      targsBin [] "boom" rfl⟩

/-- **C1** counterexample: with label series `[5, 7]` the source's branch
condition (positional target names all in `"0","1"`) holds and the decorated
run logs the binary report — accuracy, ROC-AUC and Matthews lines included —
although the set of distinct labels is not the binary set 0,1 and the claim
demands the multi-class branch there. -/
theorem C1_counterexample :
    binaryBranchCheck (targetNamesOf ([5, 7] : List Int)) = true ∧
    specLabelSetIsBinary [5, 7] = false ∧
    (log_train_wrapped extTest sessInfo "train" false "E" trainOk
        ⟨(), ⟨[5, 7], "x"⟩, [], "m"⟩ []).logs =
      [⟨PyLevel.info,
        "\ntotal execution time: E \nareas_name: x \nCR\naccuracy_score A\nroc_auc_score R\nmatthews_corrcoef M\n"⟩] :=
  ⟨by decide, by decide, by decide⟩

/-- **C1** (amended): with logging enabled and a successful run, the Training
Report Builder takes the binary branch exactly when the area series has at
most two distinct labels — whatever those labels are — and the multi-class
branch exactly when it has three or more. -/
theorem C1_binary_branch_iff_two_distinct {β δ μ γ σ ε ρ π : Type}
    [LinearOrder β] (ext : ExternalFns β δ μ γ ε) (sess : Session γ)
    (funcName : String) (hasHandlers : Bool) (elapsed : String)
    (func : TrainArgs β δ π → List (String × σ) → Except ε ρ)
    (args : TrainArgs β δ π) (kwargs : List (String × σ)) (lvl : PyLevel)
    (r : ρ) (hl : get_level funcName sess.logging_level = some lvl)
    (hok : func args [] = Except.ok r) :
    (log_train_wrapped ext sess funcName hasHandlers elapsed func args
      kwargs).logs =
      [⟨PyLevel.info,
        if args.areas.values.toFinset.card ≤ 2 then
          trainReportHeader elapsed args.areas.name
            (binaryReports ext args.areas.values
              (get_prediction ext args.descr args.areas.values
                args.model_path)
              (targetNamesOf args.areas.values))
        else
          trainReportHeader elapsed (inferAreasName args.areas.name)
            (ext.classification_report (pySorted args.areas.values)
              (get_prediction ext args.descr args.areas.values
                args.model_path)
              ((sess.predictions_parameters
                (inferAreasName args.areas.name ++ "_classes")).map
                ext.str_el))⟩] := by
  unfold log_train_wrapped load_base_loggers_config
  rw [hl]
  simp only [hok]
  by_cases hcard : args.areas.values.toFinset.card ≤ 2
  · have hb : binaryBranchCheck (targetNamesOf args.areas.values) = true :=
      (binaryBranch_iff_two_distinct _).mpr hcard
    simp [hb, hcard]
  · have hb : binaryBranchCheck (targetNamesOf args.areas.values) = false := by
      rw [← Bool.not_eq_true]
      intro h
      exact hcard ((binaryBranch_iff_two_distinct _).mp h)
    simp [hb, hcard]

/-- Witness for the amended C1, at a two-distinct-label series whose labels
are 5 and 7: the binary report is logged. -/
theorem C1_witness :
    get_level "train" sessInfo.logging_level = some PyLevel.info ∧
    trainOk ⟨(), ⟨[5, 7], "x"⟩, [], "m"⟩ [] = Except.ok 7 ∧
    (log_train_wrapped extTest sessInfo "train" false "E" trainOk
      ⟨(), ⟨[5, 7], "x"⟩, [], "m"⟩ []).logs =
      [⟨PyLevel.info,
        if (([5, 7] : List Int)).toFinset.card ≤ 2 then
          trainReportHeader "E" "x"
            (binaryReports extTest [5, 7]
              (get_prediction extTest () [5, 7] "m")
              (targetNamesOf ([5, 7] : List Int)))
        else
          trainReportHeader "E" (inferAreasName "x")
            (extTest.classification_report (pySorted [5, 7])
              (get_prediction extTest () [5, 7] "m")
              ((sessInfo.predictions_parameters
                (inferAreasName "x" ++ "_classes")).map extTest.str_el))⟩] :=
  ⟨rfl, rfl,
    C1_binary_branch_iff_two_distinct extTest sessInfo "train" false "E"
      trainOk ⟨(), ⟨[5, 7], "x"⟩, [], "m"⟩ [] PyLevel.info 7 rfl rfl⟩

/-- **C2**: in the multi-class branch the classification report is built from
the true labels sorted ascending (a sorted permutation of the area series)
while the predicted labels are passed exactly as `__get_prediction` produced
them, in original order. -/
theorem C2_sorted_true_unsorted_pred {β δ μ γ σ ε ρ π : Type} [LinearOrder β]
    (ext : ExternalFns β δ μ γ ε) (sess : Session γ) (funcName : String)
    (hasHandlers : Bool) (elapsed : String)
    (func : TrainArgs β δ π → List (String × σ) → Except ε ρ)
    (args : TrainArgs β δ π) (kwargs : List (String × σ)) (lvl : PyLevel)
    (r : ρ) (hl : get_level funcName sess.logging_level = some lvl)
    (hok : func args [] = Except.ok r)
    (hmc : binaryBranchCheck (targetNamesOf args.areas.values) = false) :
    (log_train_wrapped ext sess funcName hasHandlers elapsed func args
      kwargs).logs =
      [⟨PyLevel.info,
        trainReportHeader elapsed (inferAreasName args.areas.name)
          (ext.classification_report (pySorted args.areas.values)
            (get_prediction ext args.descr args.areas.values args.model_path)
            ((sess.predictions_parameters
              (inferAreasName args.areas.name ++ "_classes")).map
              ext.str_el))⟩] ∧
    List.Sorted (fun a b => a ≤ b) (pySorted args.areas.values) ∧
    (pySorted args.areas.values).Perm args.areas.values := by
  refine ⟨?_, ?_, ?_⟩
  · unfold log_train_wrapped load_base_loggers_config
    rw [hl]
    simp [hok, hmc]
  · exact List.sorted_insertionSort _ _
  · exact List.perm_insertionSort _ _

/-- Witness for C2 at the three-label series `[3, 1, 2]` named
`"ttr_field"`. -/
theorem C2_witness :
    get_level "train" sessInfo.logging_level = some PyLevel.info ∧
    trainOk targsMulti [] = Except.ok 7 ∧
    binaryBranchCheck (targetNamesOf targsMulti.areas.values) = false ∧
    ((log_train_wrapped extTest sessInfo "train" false "E" trainOk targsMulti
      []).logs =
      [⟨PyLevel.info,
        trainReportHeader "E" (inferAreasName targsMulti.areas.name)
          (extTest.classification_report (pySorted targsMulti.areas.values)
            (get_prediction extTest targsMulti.descr targsMulti.areas.values
              targsMulti.model_path)
            ((sessInfo.predictions_parameters
              (inferAreasName targsMulti.areas.name ++ "_classes")).map
              extTest.str_el))⟩] ∧
      List.Sorted (fun a b => a ≤ b) (pySorted targsMulti.areas.values) ∧
      (pySorted targsMulti.areas.values).Perm targsMulti.areas.values) :=
  ⟨rfl, rfl, by decide,
    C2_sorted_true_unsorted_pred extTest sessInfo "train" false "E" trainOk
      targsMulti [] PyLevel.info 7 rfl rfl (by decide)⟩

/-- **C3** counterexample: for a series named `"TTR"` the code lowercases the
name before the substring match and yields area name `"ttr"`, while the
claim's literal substring mapping ("a name containing `ttr`") yields the
empty string. -/
theorem C3_counterexample :
    inferAreasName "TTR" = "ttr" ∧ specInferAreasName "TTR" = "" :=
  ⟨by decide, by decide⟩

/-- **C3** (amended): in the multi-class branch the area name is derived by
substring match on the *lowercased* series name — `"priority"` wins, then
`"ttr"`, else the empty string — and the report's target names are read from
the session configuration under the key `<area_name>_classes`. -/
theorem C3_area_name_and_config_key {β δ μ γ σ ε ρ π : Type} [LinearOrder β]
    (ext : ExternalFns β δ μ γ ε) (sess : Session γ) (funcName : String)
    (hasHandlers : Bool) (elapsed : String)
    (func : TrainArgs β δ π → List (String × σ) → Except ε ρ)
    (args : TrainArgs β δ π) (kwargs : List (String × σ)) (lvl : PyLevel)
    (r : ρ) (hl : get_level funcName sess.logging_level = some lvl)
    (hok : func args [] = Except.ok r)
    (hmc : binaryBranchCheck (targetNamesOf args.areas.values) = false) :
    (log_train_wrapped ext sess funcName hasHandlers elapsed func args
      kwargs).logs =
      [⟨PyLevel.info,
        trainReportHeader elapsed (inferAreasName args.areas.name)
          (ext.classification_report (pySorted args.areas.values)
            (get_prediction ext args.descr args.areas.values args.model_path)
            ((sess.predictions_parameters
              (inferAreasName args.areas.name ++ "_classes")).map
              ext.str_el))⟩] ∧
    (pyInStr "priority" (pyLower args.areas.name) = true →
      inferAreasName args.areas.name = "priority") ∧
    (pyInStr "priority" (pyLower args.areas.name) = false →
      pyInStr "ttr" (pyLower args.areas.name) = true →
      inferAreasName args.areas.name = "ttr") ∧
    (pyInStr "priority" (pyLower args.areas.name) = false →
      pyInStr "ttr" (pyLower args.areas.name) = false →
      inferAreasName args.areas.name = "") := by
  refine ⟨?_, ?_, ?_, ?_⟩
  · unfold log_train_wrapped load_base_loggers_config
    rw [hl]
    simp [hok, hmc]
  · intro h
    simp [inferAreasName, h]
  · intro h1 h2
    simp [inferAreasName, h1, h2]
  · intro h1 h2
    simp [inferAreasName, h1, h2]

/-- Witness for the amended C3 at the series named `"ttr_field"`: the area
name is `"ttr"` and the class names come from the `ttr_classes` key. -/
theorem C3_witness :
    get_level "train" sessInfo.logging_level = some PyLevel.info ∧
    trainOk targsMulti [] = Except.ok 7 ∧
    binaryBranchCheck (targetNamesOf targsMulti.areas.values) = false ∧
    ((log_train_wrapped extTest sessInfo "train" false "E" trainOk targsMulti
      []).logs =
      [⟨PyLevel.info,
        trainReportHeader "E" (inferAreasName targsMulti.areas.name)
          (extTest.classification_report (pySorted targsMulti.areas.values)
            (get_prediction extTest targsMulti.descr targsMulti.areas.values
              targsMulti.model_path)
            ((sessInfo.predictions_parameters
              (inferAreasName targsMulti.areas.name ++ "_classes")).map
              extTest.str_el))⟩] ∧
      (pyInStr "priority" (pyLower targsMulti.areas.name) = true →
        inferAreasName targsMulti.areas.name = "priority") ∧
      (pyInStr "priority" (pyLower targsMulti.areas.name) = false →
        pyInStr "ttr" (pyLower targsMulti.areas.name) = true →
        inferAreasName targsMulti.areas.name = "ttr") ∧
      (pyInStr "priority" (pyLower targsMulti.areas.name) = false →
        pyInStr "ttr" (pyLower targsMulti.areas.name) = false →
        inferAreasName targsMulti.areas.name = "")) :=
  ⟨rfl, rfl, by decide,
    C3_area_name_and_config_key extTest sessInfo "train" false "E" trainOk
      targsMulti [] PyLevel.info 7 rfl rfl (by decide)⟩
